import Mathlib

/-!
Shallow embedding of the vgmstream mixing engine (src/mixing.c) and proofs of
the spec claims about it.  Machine samples and volumes are modelled over
exact arithmetic (integers for pcm16 samples and sample positions, rationals
for the float working values); the C transcendental library calls
(exp, cos, sin, sqrt and the constant M_PI) are abstracted as an explicit
record of rational functions, since none of the verified claims depends on
their values.
-/

/-- Abstract interface for the math.h calls used by mixing.c.  Each field
stands for the corresponding C double function, applied to rationals. -/
structure TransFns where
  fexp : ℚ → ℚ
  fcos : ℚ → ℚ
  fsin : ℚ → ℚ
  fsqrt : ℚ → ℚ
  fpi : ℚ

/-- A trivial instance of the abstract math interface, used for witnesses. -/
def F0 : TransFns := ⟨fun _ => 0, fun _ => 0, fun _ => 0, fun _ => 0, 0⟩

/-- mix_command_t from mixing.c (MIX_SWAP .. MIX_FADE). -/
inductive MixCommandT where
  | swap
  | add
  | volume
  | limit
  | upmix
  | downmix
  | killmix
  | fade
deriving DecidableEq, Repr

/-- mix_command_data from mixing.c: one mixing instruction.  Channel indices
and sample positions are C ints, modelled as integers (the sentinel -1 keeps
its literal value); float volumes are modelled as rationals. -/
structure MixCommandData where
  command : MixCommandT
  ch_dst : ℤ
  ch_src : ℤ
  vol : ℚ
  vol_start : ℚ
  vol_end : ℚ
  shape : Char
  time_pre : ℤ
  time_start : ℤ
  time_end : ℤ
  time_post : ℤ
deriving DecidableEq, Repr

/-- The zero-initialized command, mirroring the C idiom mix = \x7b0\x7d. -/
def mix0 : MixCommandData :=
  ⟨MixCommandT.swap, 0, 0, 0, 0, 0, Char.ofNat 0, 0, 0, 0, 0⟩

/-- mixing_data from mixing.c.  The pair (mixing_chain, mixing_count) is
modelled as a Lean list whose length is mixing_count; the mixbuf pointer is
kept outside the state and passed to the execution engine explicitly. -/
structure MixingData where
  mixing_channels : ℤ
  output_channels : ℤ
  mixing_on : Bool
  mixing_chain : List MixCommandData
  mixing_size : ℕ
deriving DecidableEq, Repr

/-- The fields of VGMSTREAM read by mixing.c. -/
structure VGMStreamState where
  channels : ℤ
  loop_flag : Bool
  current_sample : ℤ
  loop_start_sample : ℤ
  loop_end_sample : ℤ
  loop_count : ℤ
  sample_rate : ℤ
  config_loop_count : ℤ
deriving DecidableEq, Repr

/-- The shape switch inside get_fade_gain (mixing.c lines 177-209): maps the
linear progress index through the configured fade curve. -/
def shape_gain (F : TransFns) (shape : Char) (index : ℚ) : ℚ :=
  if shape = 'E' then F.fexp (-(5.75646273248511 : ℚ) * (1 - index))
  else if shape = 'L' then 1 - F.fexp (-(5.75646273248511 : ℚ) * index)
  else if shape = 'H' then (1 - F.fcos (index * F.fpi)) / 2
  else if shape = 'Q' then F.fsin (index * F.fpi / 2)
  else if shape = 'p' then 1 - F.fsqrt (1 - index)
  else if shape = 'P' then 1 - (1 - index) * (1 - index)
  else index

/-- get_fade_gain from mixing.c (lines 133-225).  Returns none exactly when
the C function returns 0 (position outside the envelope), otherwise the
computed volume. -/
def get_fade_gain (F : TransFns) (mix : MixCommandData) (current_subpos : ℤ) : Option ℚ :=
  if (current_subpos ≥ mix.time_pre ∨ mix.time_pre < 0) ∧ current_subpos < mix.time_start then
    some mix.vol_start
  else if current_subpos ≥ mix.time_end ∧ (current_subpos < mix.time_post ∨ mix.time_post < 0) then
    some mix.vol_end
  else if current_subpos ≥ mix.time_start ∧ current_subpos < mix.time_end then
    let range_vol : ℚ := mix.vol_end - mix.vol_start
    let range_dur : ℚ := ((mix.time_end - mix.time_start : ℤ) : ℚ)
    let index : ℚ :=
      if mix.vol_start < mix.vol_end then
        ((current_subpos - mix.time_start : ℤ) : ℚ) / range_dur
      else
        ((mix.time_end - current_subpos : ℤ) : ℚ) / range_dur
    let gain := shape_gain F mix.shape index
    some (if mix.vol_start < mix.vol_end then mix.vol_start + range_vol * gain
          else mix.vol_end - range_vol * gain)
  else
    none

/-- VGMSTREAM_MAX_MIXING from mixing.c line 50. -/
def VGMSTREAM_MAX_MIXING : ℕ := 128

/-- Modelled from the spec: VGMSTREAM_MAX_CHANNELS (the hardware channel
ceiling checked by mixing_push_upmix) is defined in a vgmstream header
outside src/; the proofs below do not depend on its exact value. -/
def VGMSTREAM_MAX_CHANNELS : ℤ := 64

/-- mixing_init from mixing.c (lines 382-396), for a stream with the given
channel count. -/
def mixing_init (channels : ℤ) : MixingData :=
  ⟨channels, channels, false, [], VGMSTREAM_MAX_MIXING⟩

/-- add_mixing from mixing.c (lines 420-440): validate activation state and
capacity, then append.  The Bool is the C return value. -/
def add_mixing (data : MixingData) (mix : MixCommandData) : MixingData × Bool :=
  if data.mixing_on then (data, false)
  else if data.mixing_chain.length + 1 > data.mixing_size then (data, false)
  else ({ data with mixing_chain := data.mixing_chain ++ [mix] }, true)

/-- mixing_push_swap from mixing.c (lines 443-454). -/
def mixing_push_swap (data : MixingData) (ch_dst ch_src : ℤ) : MixingData :=
  if ch_dst < 0 ∨ ch_src < 0 ∨ ch_dst = ch_src then data
  else if ch_dst ≥ data.output_channels ∨ ch_src ≥ data.output_channels then data
  else
    (add_mixing data
      { mix0 with command := MixCommandT.swap, ch_dst := ch_dst, ch_src := ch_src }).1

/-- mixing_push_add from mixing.c (lines 456-473). -/
def mixing_push_add (data : MixingData) (ch_dst ch_src : ℤ) (volume : ℚ) : MixingData :=
  if volume = 0 then data
  else if ch_dst < 0 ∨ ch_src < 0 then data
  else if ch_dst ≥ data.output_channels ∨ ch_src ≥ data.output_channels then data
  else
    (add_mixing data
      { mix0 with command := MixCommandT.add, ch_dst := ch_dst, ch_src := ch_src,
                  vol := volume }).1

/-- mixing_push_volume from mixing.c (lines 475-490); a negative ch_dst
means all channels and is accepted. -/
def mixing_push_volume (data : MixingData) (ch_dst : ℤ) (volume : ℚ) : MixingData :=
  if volume = 1 then data
  else if ch_dst ≥ data.output_channels then data
  else
    (add_mixing data
      { mix0 with command := MixCommandT.volume, ch_dst := ch_dst, vol := volume }).1

/-- mixing_push_limit from mixing.c (lines 492-507). -/
def mixing_push_limit (data : MixingData) (ch_dst : ℤ) (volume : ℚ) : MixingData :=
  if volume < 0 then data
  else if volume = 1 then data
  else if ch_dst ≥ data.output_channels then data
  else
    (add_mixing data
      { mix0 with command := MixCommandT.limit, ch_dst := ch_dst, vol := volume }).1

/-- mixing_push_upmix from mixing.c (lines 509-527). -/
def mixing_push_upmix (data : MixingData) (ch_dst : ℤ) : MixingData :=
  if ch_dst < 0 then data
  else if ch_dst > data.output_channels ∨
      data.output_channels + 1 > VGMSTREAM_MAX_CHANNELS then data
  else
    let r := add_mixing data { mix0 with command := MixCommandT.upmix, ch_dst := ch_dst }
    if r.2 then
      let d : MixingData := { r.1 with output_channels := r.1.output_channels + 1 }
      if d.mixing_channels < d.output_channels then
        { d with mixing_channels := d.output_channels }
      else d
    else r.1

/-- mixing_push_downmix from mixing.c (lines 529-544). -/
def mixing_push_downmix (data : MixingData) (ch_dst : ℤ) : MixingData :=
  if ch_dst < 0 then data
  else if ch_dst ≥ data.output_channels ∨ data.output_channels - 1 < 1 then data
  else
    let r := add_mixing data { mix0 with command := MixCommandT.downmix, ch_dst := ch_dst }
    if r.2 then { r.1 with output_channels := r.1.output_channels - 1 }
    else r.1

/-- mixing_push_killmix from mixing.c (lines 546-562). -/
def mixing_push_killmix (data : MixingData) (ch_dst : ℤ) : MixingData :=
  if ch_dst ≤ 0 then data
  else if ch_dst ≥ data.output_channels then data
  else
    let r := add_mixing data { mix0 with command := MixCommandT.killmix, ch_dst := ch_dst }
    if r.2 then { r.1 with output_channels := ch_dst }
    else r.1

/-- get_last_fade from mixing.c (lines 565-576), returning the index of the
most recent fade command aimed at the target channel. -/
def get_last_fade_idx (chain : List MixCommandData) (target : ℤ) : Option ℕ :=
  (List.range chain.length).reverse.find? fun i =>
    match chain.get? i with
    | some m => decide (m.command = MixCommandT.fade ∧ m.ch_dst = target)
    | none => false

/-- The fade stitching mutations of mixing_push_fade (mixing.c lines
636-650), acting on the pair (previous fade, new fade).  Only reached when
the previous fade has an open post or the new fade has an open pre, and the
two fades are orderly. -/
def stitch_pair (prev mix : MixCommandData) : MixCommandData × MixCommandData :=
  let pm :=
    if prev.time_post < 0 ∧ prev.time_post < 0 then
      ({ prev with time_post := prev.time_end }, { mix with time_pre := prev.time_end })
    else (prev, mix)
  if pm.1.time_post ≥ 0 ∧ pm.2.time_pre < 0 then
    (pm.1, { pm.2 with time_pre := pm.1.time_post })
  else if pm.1.time_post < 0 ∧ pm.2.time_pre ≥ 0 then
    ({ pm.1 with time_post := pm.2.time_pre }, pm.2)
  else pm

/-- The tail of mixing_push_fade after validation (mixing.c lines 622-655):
look for the most recent fade on the same channel, run the stitching pass
against it, and append.  Stitching patches the previous chain entry before
add_mixing runs, hence even when the append is then rejected. -/
def mixing_push_fade_core (data : MixingData) (mix : MixCommandData) : MixingData :=
  match get_last_fade_idx data.mixing_chain mix.ch_dst with
  | none => (add_mixing data mix).1
  | some i =>
    if (data.mixing_chain.getD i mix0).time_post < 0 ∨ mix.time_pre < 0 then
      if (data.mixing_chain.getD i mix0).time_end > mix.time_start ∨
          ((data.mixing_chain.getD i mix0).time_post ≥ 0 ∧
            (data.mixing_chain.getD i mix0).time_post > mix.time_start) ∨
          (mix.time_pre ≥ 0 ∧ mix.time_pre < (data.mixing_chain.getD i mix0).time_end) then
        (add_mixing data mix).1
      else
        (add_mixing
          { data with mixing_chain :=
              (data.mixing_chain.set i (stitch_pair (data.mixing_chain.getD i mix0) mix).1) }
          (stitch_pair (data.mixing_chain.getD i mix0) mix).2).1
    else (add_mixing data mix).1

/-- mixing_push_fade from mixing.c (lines 579-656).  Note that when no
previous fade exists the C code assigns the defaulted pre/post values to
already-dead local variables, so the appended command keeps the open
boundaries. -/
def mixing_push_fade (data : MixingData) (ch_dst : ℤ) (vol_start vol_end : ℚ)
    (shape : Char) (time_pre time_start time_end time_post : ℤ) : MixingData :=
  if ch_dst ≥ data.output_channels then data
  else if time_pre > time_start ∨ time_start > time_end ∨
      (time_post ≥ 0 ∧ time_end > time_post) then data
  else if time_start < 0 ∨ time_end < 0 then data
  else
    let shape2 := if shape.toNat = 123 ∨ shape.toNat = 125 then 'E' else shape
    let shape3 := if shape2.toNat = 40 ∨ shape2.toNat = 41 then 'H' else shape2
    mixing_push_fade_core data
      ⟨MixCommandT.fade, ch_dst, 0, 0, vol_start, vol_end, shape3,
       time_pre, time_start, time_end, time_post⟩

/-- mixing_macro_volume from mixing.c (lines 660-677). -/
def mixing_macro_volume (data : MixingData) (volume : ℚ) (mask : ℕ) : MixingData :=
  if mask = 0 then mixing_push_volume data (-1) volume
  else
    (List.range data.output_channels.toNat).foldl
      (fun d ch => if mask.testBit ch then mixing_push_volume d (ch : ℤ) volume else d)
      data

/-- mixing_macro_track from mixing.c (lines 679-696): downmix away every
unselected channel, iterating from the highest index down. -/
def mixing_macro_track (data : MixingData) (mask : ℕ) : MixingData :=
  if mask = 0 then data
  else
    (List.range data.output_channels.toNat).reverse.foldl
      (fun d ch => if mask.testBit ch then d else mixing_push_downmix d (ch : ℤ))
      data

/-- mixing_macro_layer from mixing.c (lines 698-769).  The division and
modulo in the volume formulas are on nonnegative C ints, modelled on ℕ
(C semantics is undefined when the modulus is zero; ℕ then yields the
dividend, and no claim exercises that case). -/
def mixing_macro_layer (F : TransFns) (data : MixingData) (max : ℤ) (mask : ℕ)
    (mode : Char) : MixingData :=
  if max ≤ 0 ∨ data.output_channels ≤ max then data
  else
    let mask := if mask = 0 then 2 ^ 32 - 1 else mask
    let output_channels := data.output_channels
    let selected_channels :=
      ((List.range output_channels.toNat).filter fun ch => mask.testBit ch).length
    let data := (List.range max.toNat).foldl (fun d _ => mixing_push_upmix d 0) data
    let res :=
      (List.range output_channels.toNat).foldl
        (fun (acc : MixingData × ℕ) ch =>
          if ¬ mask.testBit ch then acc
          else
            let volume : ℚ :=
              if mode = 'b' ∧ (ch : ℤ) < max then
                let channel_mixes := selected_channels / max.toNat
                let channel_mixes :=
                  if acc.2 < selected_channels % (channel_mixes * max.toNat) then
                    channel_mixes + 1
                  else channel_mixes
                let channel_mixes := channel_mixes - 1
                let channel_mixes := if channel_mixes = 0 then 1 else channel_mixes
                1 / F.fsqrt (channel_mixes : ℚ)
              else if (mode = 'b' ∧ (ch : ℤ) ≥ max) ∨ mode = 'e' then
                let channel_mixes := selected_channels / max.toNat
                let channel_mixes := if channel_mixes = 0 then 1 else channel_mixes
                let channel_mixes :=
                  if acc.2 < selected_channels % (channel_mixes * max.toNat) then
                    channel_mixes + 1
                  else channel_mixes
                1 / F.fsqrt (channel_mixes : ℚ)
              else 1
            let d2 := mixing_push_add acc.1 (acc.2 : ℤ) (max + (ch : ℤ)) volume
            let cur := acc.2 + 1
            (d2, if (cur : ℤ) ≥ max then 0 else cur))
        (data, 0)
    mixing_push_killmix res.1 max

/-- mixing_macro_crosstrack from mixing.c (lines 771-830).  The stream
state is returned as well because the macro may raise config_loop_count. -/
def mixing_macro_crosstrack (data : MixingData) (vgm : VGMStreamState) (max : ℤ) :
    MixingData × VGMStreamState :=
  if max ≤ 0 ∨ data.output_channels ≤ max then (data, vgm)
  else if ¬ vgm.loop_flag then (data, vgm)
  else
    let output_channels := data.output_channels
    let dc : MixingData × ℤ :=
      if output_channels % 2 ≠ 0 then
        (mixing_push_upmix data output_channels, output_channels + 1)
      else (data, output_channels)
    let data := dc.1
    let output_channels := dc.2
    let track_num : ℤ := (output_channels.toNat / max.toNat : ℕ)
    let vgm :=
      if vgm.config_loop_count < track_num then
        { vgm with config_loop_count := track_num }
      else vgm
    let loop_pre := vgm.loop_start_sample
    let loop_samples := vgm.loop_end_sample - vgm.loop_start_sample
    let change_time := 15 * vgm.sample_rate
    let data :=
      (List.range track_num.toNat).foldl
        (fun d track =>
          let change_pos := loop_pre + loop_samples * (track : ℤ)
          let change_next := loop_pre + loop_samples * ((track : ℤ) + 1)
          let ch := max * (track : ℤ)
          (List.range max.toNat).foldl
            (fun d2 track_ch =>
              let d3 :=
                if 0 < track then
                  mixing_push_fade d2 (ch + (track_ch : ℤ)) 0 1 (Char.ofNat 40)
                    (-1) change_pos (change_pos + change_time) (-1)
                else d2
              if (track : ℤ) + 1 < track_num then
                mixing_push_fade d3 (ch + (track_ch : ℤ)) 1 0 (Char.ofNat 41)
                  (-1) change_next (change_next + change_time) (-1)
              else d3)
            d)
        data
    let res :=
      (List.range output_channels.toNat).foldl
        (fun (acc : MixingData × ℤ) ch =>
          if (ch : ℤ) < max then acc
          else
            let d2 := mixing_push_add acc.1 acc.2 (ch : ℤ) 1
            let cur := acc.2 + 1
            (d2, if cur ≥ max then 0 else cur))
        (data, 0)
    (mixing_push_killmix res.1 max, vgm)

/-- mixing_macro_crosslayer from mixing.c (lines 832-925). -/
def mixing_macro_crosslayer (F : TransFns) (data : MixingData) (vgm : VGMStreamState)
    (max : ℤ) (mode : Char) : MixingData × VGMStreamState :=
  if max ≤ 0 ∨ data.output_channels ≤ max then (data, vgm)
  else if ¬ vgm.loop_flag then (data, vgm)
  else
    let output_channels := data.output_channels
    let dc : MixingData × ℤ :=
      if output_channels % 2 ≠ 0 then
        (mixing_push_upmix data output_channels, output_channels + 1)
      else (data, output_channels)
    let data := dc.1
    let output_channels := dc.2
    let layer_num : ℤ := (output_channels.toNat / max.toNat : ℕ)
    let vgm :=
      if vgm.config_loop_count < layer_num then
        { vgm with config_loop_count := layer_num }
      else vgm
    let loop_pre := vgm.loop_start_sample
    let loop_samples := vgm.loop_end_sample - vgm.loop_start_sample
    let change_time := 10 * vgm.sample_rate
    let data :=
      (List.range layer_num.toNat).foldl
        (fun d loopIdx =>
          if loopIdx = 0 then d
          else
            let change_pos := loop_pre + loop_samples * (loopIdx : ℤ)
            let res :=
              (List.range layer_num.toNat).foldl
                (fun (acc : MixingData × ℤ) layer =>
                  let volume1 : ℚ :=
                    if mode = 'b' then
                      if layer = 0 then
                        1 / F.fsqrt
                          (((if (loopIdx : ℤ) - 1 ≤ 0 then 1 else (loopIdx : ℤ) - 1) : ℤ) : ℚ)
                      else 1 / F.fsqrt ((loopIdx : ℤ) : ℚ)
                    else if mode = 'e' then 1 / F.fsqrt ((loopIdx : ℤ) : ℚ)
                    else 1
                  let volume2 : ℚ :=
                    if mode = 'b' then
                      if layer = 0 then 1 / F.fsqrt ((loopIdx : ℤ) : ℚ)
                      else 1 / F.fsqrt (((loopIdx : ℤ) : ℚ) + 1)
                    else if mode = 'e' then 1 / F.fsqrt (((loopIdx : ℤ) : ℚ) + 1)
                    else 1
                  if layer > loopIdx then acc
                  else
                    let t := if layer = loopIdx then Char.ofNat 40 else Char.ofNat 41
                    let v1 := if layer = loopIdx then 0 else volume1
                    let d2 :=
                      (List.range max.toNat).foldl
                        (fun d3 layer_ch =>
                          mixing_push_fade d3 (acc.2 + (layer_ch : ℤ)) v1 volume2 t
                            (-1) change_pos (change_pos + change_time) (-1))
                        acc.1
                    (d2, acc.2 + max))
                (d, 0)
            res.1)
        data
    let res :=
      (List.range output_channels.toNat).foldl
        (fun (acc : MixingData × ℤ) ch =>
          if (ch : ℤ) < max then acc
          else
            let d2 := mixing_push_add acc.1 acc.2 (ch : ℤ) 1
            let cur := acc.2 + 1
            (d2, if cur ≥ max then 0 else cur))
        (data, 0)
    (mixing_push_killmix res.1 max, vgm)

/-- The concrete fade command of the end-to-end example in the spec:
Fade(all, vol_start=1.0, vol_end=0.0, shape=T, pre=-1, start=0, end=100, post=-1). -/
def fadeExampleCmd : MixCommandData :=
  ⟨MixCommandT.fade, -1, 0, 0, 1, 0, 'T', -1, 0, 100, -1⟩

lemma shape_gain_T (F : TransFns) (i : ℚ) : shape_gain F 'T' i = i := rfl

/-- INT_MAX, used by is_active for an unbounded fade end. -/
def INT_MAX : ℤ := 2147483647

/-- is_active from mixing.c (lines 95-115): decides whether the command
chain can have any effect on the sample range given by current_start and
current_end. -/
def is_active : List MixCommandData → ℤ → ℤ → Bool
  | [], _, _ => false
  | mix :: rest, current_start, current_end =>
    if mix.command ≠ MixCommandT.fade then true
    else
      let fade_start := if mix.time_pre < 0 then 0 else mix.time_pre
      let fade_end := if mix.time_post < 0 then INT_MAX else mix.time_post
      if current_start < fade_end ∧ current_end > fade_start then true
      else is_active rest current_start current_end

/-- get_current_pos from mixing.c (lines 117-131): absolute sample position
adjusted for loop wrap. -/
def get_current_pos (v : VGMStreamState) : ℤ :=
  if v.loop_flag ∧ v.current_sample > v.loop_start_sample then
    let loop_pre := v.loop_start_sample
    let loop_into := v.current_sample - v.loop_start_sample
    let loop_samples := v.loop_end_sample - v.loop_start_sample
    loop_pre + loop_into + loop_samples * v.loop_count
  else
    v.current_sample

/-- Modelled from the spec: clamp16 (defined in a vgmstream header outside
src/) clamps an integer sample to the signed 16-bit range. -/
def clamp16 (v : ℤ) : ℤ :=
  if v > 32767 then 32767 else if v < -32768 then -32768 else v

/-- C float-to-int cast semantics: truncation toward zero. -/
def ratTrunc (q : ℚ) : ℤ :=
  if 0 ≤ q then ⌊q⌋ else -⌊-q⌋

/-- One iteration of the per-command switch in mix_vgmstream (mixing.c lines
264-359), acting on the working row of lanes and the running channel count
step_channels.  The row is a total function so that the lanes beyond the
current width keep their (stale) values exactly as the C buffer does. -/
def applyCommand (F : TransFns) (current_subpos : ℤ) (st : (ℤ → ℚ) × ℤ)
    (mix : MixCommandData) : (ℤ → ℚ) × ℤ :=
  let stpbuf := st.1
  let step_channels := st.2
  let limiter_max : ℚ := 32767
  let limiter_min : ℚ := -32768
  match mix.command with
  | MixCommandT.swap =>
    (fun i => if i = mix.ch_src then stpbuf mix.ch_dst
              else if i = mix.ch_dst then stpbuf mix.ch_src
              else stpbuf i, step_channels)
  | MixCommandT.add =>
    (fun i => if i = mix.ch_dst then stpbuf mix.ch_dst + stpbuf mix.ch_src * mix.vol
              else stpbuf i, step_channels)
  | MixCommandT.volume =>
    if mix.ch_dst < 0 then
      (fun i => if 0 ≤ i ∧ i < step_channels then stpbuf i * mix.vol else stpbuf i,
       step_channels)
    else
      (fun i => if i = mix.ch_dst then stpbuf i * mix.vol else stpbuf i, step_channels)
  | MixCommandT.limit =>
    let temp_max := limiter_max * mix.vol
    let temp_min := limiter_min * mix.vol
    let clampLane : ℚ → ℚ := fun v =>
      if v > temp_max then temp_max else if v < temp_min then temp_min else v
    if mix.ch_dst < 0 then
      (fun i => if 0 ≤ i ∧ i < step_channels then clampLane (stpbuf i) else stpbuf i,
       step_channels)
    else
      (fun i => if i = mix.ch_dst then clampLane (stpbuf i) else stpbuf i, step_channels)
  | MixCommandT.upmix =>
    let n := step_channels + 1
    (fun i => if i = mix.ch_dst then 0
              else if mix.ch_dst < i ∧ i ≤ n - 1 then stpbuf (i - 1)
              else stpbuf i, n)
  | MixCommandT.downmix =>
    let n := step_channels - 1
    (fun i => if mix.ch_dst ≤ i ∧ i < n then stpbuf (i + 1) else stpbuf i, n)
  | MixCommandT.killmix =>
    (stpbuf, mix.ch_dst)
  | MixCommandT.fade =>
    match get_fade_gain F mix current_subpos with
    | none => (stpbuf, step_channels)
    | some cur_vol =>
      if mix.ch_dst < 0 then
        (fun i => if 0 ≤ i ∧ i < step_channels then stpbuf i * cur_vol else stpbuf i,
         step_channels)
      else
        (fun i => if i = mix.ch_dst then stpbuf i * cur_vol else stpbuf i, step_channels)

/-- One outer iteration of the per-sample loop of mix_vgmstream (lines
255-363).  The accumulator carries the whole float mixing buffer together
with the advancing mixbuf and outbuf offsets; the working row for sample s
is the window of mixbuf starting at the current mixbuf offset. -/
def sampleStep (F : TransFns) (chain : List MixCommandData) (channels : ℤ)
    (current_pos : ℤ) (outbuf : ℤ → ℤ) (acc : (ℤ → ℚ) × ℤ × ℤ) (s : ℕ) :
    (ℤ → ℚ) × ℤ × ℤ :=
  let mixbuf := acc.1
  let mixOff := acc.2.1
  let outOff := acc.2.2
  let row0 : ℤ → ℚ := fun i =>
    if 0 ≤ i ∧ i < channels then ((outbuf (outOff + i) : ℤ) : ℚ) else mixbuf (mixOff + i)
  let res := chain.foldl (applyCommand F (current_pos + (s : ℤ))) (row0, channels)
  (fun j => if mixOff ≤ j then res.1 (j - mixOff) else mixbuf j,
   mixOff + res.2, outOff + channels)

/-- The unconditional part of mix_vgmstream (lines 250-377): run the
per-sample pass over the whole range and write the truncated and clamped
result back over the first sample_count times output_channels outbuf
entries.  mixbuf0 is the prior content of the internal float buffer. -/
def mix_full_pass (F : TransFns) (data : MixingData) (vgm : VGMStreamState)
    (mixbuf0 : ℤ → ℚ) (outbuf : ℤ → ℤ) (sample_count : ℤ) : ℤ → ℤ :=
  let current_pos := get_current_pos vgm
  let finalMix :=
    ((List.range sample_count.toNat).foldl
      (sampleStep F data.mixing_chain vgm.channels current_pos outbuf)
      (mixbuf0, 0, 0)).1
  fun j =>
    if 0 ≤ j ∧ j < sample_count * data.output_channels then
      clamp16 (ratTrunc (finalMix j))
    else outbuf j

/-- mix_vgmstream from mixing.c (lines 227-378), as a function from the old
outbuf contents to the new ones. -/
def mix_vgmstream (F : TransFns) (data : MixingData) (vgm : VGMStreamState)
    (mixbuf0 : ℤ → ℚ) (outbuf : ℤ → ℤ) (sample_count : ℤ) : ℤ → ℤ :=
  if data.mixing_on = false ∨ data.mixing_chain.length = 0 then outbuf
  else
    let current_pos := get_current_pos vgm
    if is_active data.mixing_chain current_pos (current_pos + sample_count) = false then
      outbuf
    else
      mix_full_pass F data vgm mixbuf0 outbuf sample_count

example : get_fade_gain F0 fadeExampleCmd 50 = some (1/2) := by
  norm_num [get_fade_gain, fadeExampleCmd, shape_gain_T]

example : get_fade_gain F0 fadeExampleCmd (-5) = some 1 := by
  norm_num [get_fade_gain, fadeExampleCmd]

example : get_fade_gain F0 fadeExampleCmd 100 = some 0 := by
  norm_num [get_fade_gain, fadeExampleCmd]

example :
    (mixing_push_fade (mixing_init 2) (-1) 1 0 'T' (-1) 0 100 (-1)).mixing_chain =
      [fadeExampleCmd] := by decide

example :
    ((mixing_push_fade (mixing_init 2) (-1) 0 1 'T' (-1) 0 100 (-1)).mixing_chain.getD 0
      mix0).time_post = -1 := by decide

example : (mixing_macro_layer F0 (mixing_init 4) 2 15 'v').output_channels = 2 := by decide

example :
    (mixing_macro_layer F0 (mixing_init 4) 2 15 'v').mixing_chain =
      [{ mix0 with command := MixCommandT.upmix, ch_dst := 0 },
       { mix0 with command := MixCommandT.upmix, ch_dst := 0 },
       { mix0 with command := MixCommandT.add, ch_dst := 0, ch_src := 2, vol := 1 },
       { mix0 with command := MixCommandT.add, ch_dst := 1, ch_src := 3, vol := 1 },
       { mix0 with command := MixCommandT.add, ch_dst := 0, ch_src := 4, vol := 1 },
       { mix0 with command := MixCommandT.add, ch_dst := 1, ch_src := 5, vol := 1 },
       { mix0 with command := MixCommandT.killmix, ch_dst := 2 }] := by decide

example (F : TransFns) :
    (mixing_macro_layer F (mixing_init 4) 2 15 'v').mixing_chain =
      [{ mix0 with command := MixCommandT.upmix, ch_dst := 0 },
       { mix0 with command := MixCommandT.upmix, ch_dst := 0 },
       { mix0 with command := MixCommandT.add, ch_dst := 0, ch_src := 2, vol := 1 },
       { mix0 with command := MixCommandT.add, ch_dst := 1, ch_src := 3, vol := 1 },
       { mix0 with command := MixCommandT.add, ch_dst := 0, ch_src := 4, vol := 1 },
       { mix0 with command := MixCommandT.add, ch_dst := 1, ch_src := 5, vol := 1 },
       { mix0 with command := MixCommandT.killmix, ch_dst := 2 }] := rfl

/-- A stream state with no looping, used for witnesses. -/
def vgm0 : VGMStreamState := ⟨2, false, 0, 0, 0, 0, 44100, 0⟩

/-- C1: for every Fade command and every position, the fade curve evaluator
splits the position axis into the before-window, after-window and in-window
regions as the spec describes; inside the window the result is computed by
applying the configured shape to the normalized index
(pos-start)/(end-start) on fade-in and (end-pos)/(end-start) on fade-out;
the linear shape T maps the index to itself, so the gain equals the index;
outside the pre..post envelope the evaluator reports not-applicable (none);
and the end-to-end example Fade(all, 1.0, 0.0, T, -1, 0, 100, -1) at
position 50 yields 1/2. -/
theorem claim_C1_fade_gain_regions (F : TransFns) (mix : MixCommandData) (pos : ℤ)
    (hps : mix.time_pre ≤ mix.time_start)
    (hse : mix.time_start ≤ mix.time_end)
    (hep : 0 ≤ mix.time_post → mix.time_end ≤ mix.time_post) :
    (mix.time_start ≤ pos ∧ pos < mix.time_end →
      get_fade_gain F mix pos =
        some (if mix.vol_start < mix.vol_end then
                mix.vol_start + (mix.vol_end - mix.vol_start) *
                  shape_gain F mix.shape
                    (((pos - mix.time_start : ℤ) : ℚ) /
                      ((mix.time_end - mix.time_start : ℤ) : ℚ))
              else
                mix.vol_end - (mix.vol_end - mix.vol_start) *
                  shape_gain F mix.shape
                    (((mix.time_end - pos : ℤ) : ℚ) /
                      ((mix.time_end - mix.time_start : ℤ) : ℚ)))) ∧
    (∀ index : ℚ, shape_gain F 'T' index = index) ∧
    (pos < mix.time_start ∧ (mix.time_pre ≤ pos ∨ mix.time_pre < 0) →
      get_fade_gain F mix pos = some mix.vol_start) ∧
    (mix.time_end ≤ pos ∧ (pos < mix.time_post ∨ mix.time_post < 0) →
      get_fade_gain F mix pos = some mix.vol_end) ∧
    ((0 ≤ mix.time_pre ∧ pos < mix.time_pre) ∨
        (0 ≤ mix.time_post ∧ mix.time_post ≤ pos) →
      get_fade_gain F mix pos = none) ∧
    get_fade_gain F fadeExampleCmd 50 = some (1/2) := by
  refine ⟨?_, shape_gain_T F, ?_, ?_, ?_, ?_⟩
  · rintro ⟨h1, h2⟩
    unfold get_fade_gain
    rw [if_neg (by omega), if_neg (by omega), if_pos (by omega)]
    by_cases hv : mix.vol_start < mix.vol_end <;> simp [hv]
  · rintro ⟨h1, h2⟩
    unfold get_fade_gain
    rw [if_pos (by omega)]
  · rintro ⟨h1, h2⟩
    unfold get_fade_gain
    rw [if_neg (by omega), if_pos (by omega)]
  · intro h
    unfold get_fade_gain
    rw [if_neg (by omega), if_neg (by omega), if_neg (by omega)]
  · norm_num [get_fade_gain, fadeExampleCmd, shape_gain_T]

/-- Witness for C1 at the concrete spec example. -/
theorem claim_C1_witness : get_fade_gain F0 fadeExampleCmd 50 = some (1/2) :=
  (claim_C1_fade_gain_regions F0 fadeExampleCmd 50 (by norm_num [fadeExampleCmd])
    (by norm_num [fadeExampleCmd]) (by norm_num [fadeExampleCmd])).2.2.2.2.2

/-- C2: the spec says an open pre defaults to start when vol_start is 1.0
and an open post defaults to end when vol_end is 1.0 when no previous fade
exists, and the C comments state the same intent, but the C code assigns
those defaults to local variables after the command struct was already
filled from them, so the appended command keeps the open value -1 in both
cases.  This theorem evaluates the embedded code at the two failing
inputs. -/
theorem claim_C2_fade_default_assignments_dead :
    ((mixing_push_fade (mixing_init 2) (-1) 1 0 'T' (-1) 0 100 (-1)).mixing_chain.getD 0
        mix0).time_pre = -1 ∧
    (mixing_push_fade (mixing_init 2) (-1) 1 0 'T' (-1) 0 100 (-1)).mixing_chain.length = 1 ∧
    ((mixing_push_fade (mixing_init 2) (-1) 0 1 'T' (-1) 0 100 (-1)).mixing_chain.getD 0
        mix0).time_post = -1 ∧
    (mixing_push_fade (mixing_init 2) (-1) 0 1 'T' (-1) 0 100 (-1)).mixing_chain.length = 1 := by
  decide

/-- C4: with an empty chain or mixing not activated, mix_vgmstream leaves
the output buffer untouched. -/
theorem claim_C4_mix_noop (F : TransFns) (data : MixingData) (vgm : VGMStreamState)
    (mixbuf0 : ℤ → ℚ) (outbuf : ℤ → ℤ) (sample_count : ℤ)
    (h : data.mixing_on = false ∨ data.mixing_chain.length = 0) :
    mix_vgmstream F data vgm mixbuf0 outbuf sample_count = outbuf := by
  unfold mix_vgmstream
  rw [if_pos h]

/-- Witness for C4 at a concrete inactive state. -/
theorem claim_C4_witness :
    mix_vgmstream F0 (mixing_init 2) vgm0 (fun _ => 0) (fun _ => 7) 10 = fun _ => 7 :=
  claim_C4_mix_noop F0 (mixing_init 2) vgm0 (fun _ => 0) (fun _ => 7) 10 (Or.inl rfl)

/-- C6: mixing_push_killmix accepts exactly 0 < k < output_channels (given
the uniform activation and capacity preconditions of every constructor),
and an accepted call sets output_channels to k regardless of the chain
contents appended before it. -/
theorem claim_C6_killmix_exact (data : MixingData) (k : ℤ)
    (hon : data.mixing_on = false)
    (hcap : data.mixing_chain.length + 1 ≤ data.mixing_size) :
    (0 < k ∧ k < data.output_channels →
      (mixing_push_killmix data k).output_channels = k ∧
      (mixing_push_killmix data k).mixing_chain.length = data.mixing_chain.length + 1) ∧
    (¬(0 < k ∧ k < data.output_channels) → mixing_push_killmix data k = data) := by
  constructor
  · rintro ⟨hk0, hk⟩
    have hcap2 : ¬(data.mixing_chain.length + 1 > data.mixing_size) := by omega
    simp [mixing_push_killmix, add_mixing, hon, hcap2,
      (by omega : ¬ k ≤ 0), (by omega : ¬ k ≥ data.output_channels)]
    rw [if_neg (by omega), if_neg (by omega)]
    simp
  · intro hk
    unfold mixing_push_killmix
    by_cases h1 : k ≤ 0
    · rw [if_pos h1]
    · rw [if_neg h1, if_pos (by omega)]

/-- Witness for C6: an accepted and a rejected call on a 3-channel state. -/
theorem claim_C6_witness :
    ((mixing_push_killmix (mixing_init 3) 2).output_channels = 2 ∧
      (mixing_push_killmix (mixing_init 3) 2).mixing_chain.length =
        (mixing_init 3).mixing_chain.length + 1) ∧
    mixing_push_killmix (mixing_init 3) 0 = mixing_init 3 :=
  ⟨(claim_C6_killmix_exact (mixing_init 3) 2 rfl (by decide)).1 (by decide),
   (claim_C6_killmix_exact (mixing_init 3) 0 rfl (by decide)).2 (by decide)⟩

lemma is_active_true_of_nonfade (cs ce : ℤ) :
    ∀ chain : List MixCommandData, (∃ m ∈ chain, m.command ≠ MixCommandT.fade) →
      is_active chain cs ce = true := by
  intro chain
  induction chain with
  | nil =>
    rintro ⟨m, hm, _⟩
    cases hm
  | cons head rest ih =>
    rintro ⟨m, hm, hmf⟩
    simp only [is_active]
    by_cases hh : head.command ≠ MixCommandT.fade
    · rw [if_pos hh]
    · rw [if_neg hh]
      have hm2 : m ∈ rest := by
        rcases List.mem_cons.mp hm with h | h
        · exact absurd (h ▸ hmf) hh
        · exact h
      split_ifs <;> first | rfl | exact ih ⟨m, hm2, hmf⟩

lemma is_active_false_of_far (cs ce : ℤ) :
    ∀ chain : List MixCommandData,
      (∀ m ∈ chain, m.command = MixCommandT.fade) →
      (∀ m ∈ chain, ce ≤ (if m.time_pre < 0 then 0 else m.time_pre) ∨
          (0 ≤ m.time_post ∧ m.time_post ≤ cs)) →
      is_active chain cs ce = false := by
  intro chain
  induction chain with
  | nil =>
    intro _ _
    rfl
  | cons head rest ih =>
    intro hall hno
    simp only [is_active]
    rw [if_neg (by simp [hall head (List.mem_cons_self _ _)])]
    have hc : ¬(cs < (if head.time_post < 0 then INT_MAX else head.time_post) ∧
        ce > (if head.time_pre < 0 then 0 else head.time_pre)) := by
      rcases hno head (List.mem_cons_self _ _) with h | ⟨h1, h2⟩
      · rintro ⟨hlt, hgt⟩
        omega
      · rintro ⟨hlt, hgt⟩
        rw [if_neg (by omega)] at hlt
        omega
    rw [if_neg hc]
    exact ih (fun m hm => hall m (List.mem_cons_of_mem _ hm))
      (fun m hm => hno m (List.mem_cons_of_mem _ hm))

/-- C5: a fades-only chain whose active windows (pre if set else 0, post if
set else unbounded) all miss the call range makes mix_vgmstream return with
the buffer untouched; and as soon as any non-fade command is present the
full per-sample pass runs. -/
theorem claim_C5_activity_short_circuit :
    (∀ (F : TransFns) (data : MixingData) (vgm : VGMStreamState) (mixbuf0 : ℤ → ℚ)
        (outbuf : ℤ → ℤ) (sample_count : ℤ),
      data.mixing_on = true →
      (∀ m ∈ data.mixing_chain, m.command = MixCommandT.fade) →
      (∀ m ∈ data.mixing_chain,
        get_current_pos vgm + sample_count ≤ (if m.time_pre < 0 then 0 else m.time_pre) ∨
          (0 ≤ m.time_post ∧ m.time_post ≤ get_current_pos vgm)) →
      mix_vgmstream F data vgm mixbuf0 outbuf sample_count = outbuf) ∧
    (∀ (F : TransFns) (data : MixingData) (vgm : VGMStreamState) (mixbuf0 : ℤ → ℚ)
        (outbuf : ℤ → ℤ) (sample_count : ℤ),
      data.mixing_on = true →
      (∃ m ∈ data.mixing_chain, m.command ≠ MixCommandT.fade) →
      mix_vgmstream F data vgm mixbuf0 outbuf sample_count =
        mix_full_pass F data vgm mixbuf0 outbuf sample_count) := by
  constructor
  · intro F data vgm mixbuf0 outbuf sample_count hon hall hno
    unfold mix_vgmstream
    by_cases hlen : data.mixing_chain.length = 0
    · rw [if_pos (Or.inr hlen)]
    · rw [if_neg (by simp [hon, hlen])]
      rw [if_pos]
      exact is_active_false_of_far _ _ data.mixing_chain hall hno
  · intro F data vgm mixbuf0 outbuf sample_count hon hex
    unfold mix_vgmstream
    have hlen : data.mixing_chain.length ≠ 0 := by
      rcases hex with ⟨m, hm, _⟩
      exact List.length_pos.mpr (List.ne_nil_of_mem hm) |>.ne'
    rw [if_neg (by simp [hon, hlen])]
    rw [if_neg (by simp [is_active_true_of_nonfade _ _ data.mixing_chain hex])]

/-- A fades-only state whose single fade window starts well past the call
range, used by the C5 witness. -/
def dataFadeFar : MixingData :=
  ⟨2, 2, true, [⟨MixCommandT.fade, -1, 0, 0, 1, 0, 'T', 1000, 2000, 3000, 4000⟩], 128⟩

/-- An activated state holding one Swap command, used by the C5 witness. -/
def dataSwap : MixingData :=
  ⟨2, 2, true, [{ mix0 with command := MixCommandT.swap, ch_dst := 0, ch_src := 1 }], 128⟩

/-- Witness for C5: the skipped call and the full-pass call on concrete
states. -/
theorem claim_C5_witness :
    mix_vgmstream F0 dataFadeFar vgm0 (fun _ => 0) (fun _ => 3) 10 = (fun _ => 3) ∧
    mix_vgmstream F0 dataSwap vgm0 (fun _ => 0) (fun _ => 3) 10 =
      mix_full_pass F0 dataSwap vgm0 (fun _ => 0) (fun _ => 3) 10 :=
  ⟨claim_C5_activity_short_circuit.1 F0 dataFadeFar vgm0 (fun _ => 0) (fun _ => 3) 10
      rfl (by decide) (by decide),
   claim_C5_activity_short_circuit.2 F0 dataSwap vgm0 (fun _ => 0) (fun _ => 3) 10
      rfl ⟨{ mix0 with command := MixCommandT.swap, ch_dst := 0, ch_src := 1 },
        by decide, by decide⟩⟩

/-- C7: within one sample row of the execution engine, applying the same
Swap step twice in a row restores the row and the channel count exactly. -/
theorem claim_C7_swap_self_inverse (F : TransFns) (pos : ℤ) (a b : ℤ)
    (st : (ℤ → ℚ) × ℤ) :
    applyCommand F pos
      (applyCommand F pos st { mix0 with command := MixCommandT.swap, ch_dst := a, ch_src := b })
      { mix0 with command := MixCommandT.swap, ch_dst := a, ch_src := b } = st := by
  obtain ⟨row, W⟩ := st
  refine Prod.ext ?_ rfl
  show (fun i =>
      if i = b then (fun j => if j = b then row a else if j = a then row b else row j) a
      else if i = a then (fun j => if j = b then row a else if j = a then row b else row j) b
      else (fun j => if j = b then row a else if j = a then row b else row j) i) = row
  funext i
  dsimp only
  split_ifs <;> simp_all

/-- The channel-count invariant of the mixing state. -/
def MixInv (d : MixingData) : Prop :=
  1 ≤ d.output_channels ∧ d.output_channels ≤ d.mixing_channels

lemma add_mixing_fst_counters (d : MixingData) (m : MixCommandData) :
    (add_mixing d m).1.output_channels = d.output_channels ∧
    (add_mixing d m).1.mixing_channels = d.mixing_channels := by
  unfold add_mixing
  split_ifs <;> exact ⟨rfl, rfl⟩

lemma add_mixing_fst_out (d : MixingData) (m : MixCommandData) :
    (add_mixing d m).1.output_channels = d.output_channels :=
  (add_mixing_fst_counters d m).1

lemma add_mixing_fst_mix (d : MixingData) (m : MixCommandData) :
    (add_mixing d m).1.mixing_channels = d.mixing_channels :=
  (add_mixing_fst_counters d m).2

lemma MixInv_congr {a b : MixingData} (h1 : a.output_channels = b.output_channels)
    (h2 : a.mixing_channels = b.mixing_channels) (h : MixInv b) : MixInv a := by
  unfold MixInv at *
  rw [h1, h2]
  exact h

lemma push_swap_counters (d : MixingData) (a b : ℤ) :
    (mixing_push_swap d a b).output_channels = d.output_channels ∧
    (mixing_push_swap d a b).mixing_channels = d.mixing_channels := by
  unfold mixing_push_swap
  split_ifs <;> first | exact ⟨rfl, rfl⟩ | exact add_mixing_fst_counters _ _

lemma push_add_counters (d : MixingData) (a b : ℤ) (v : ℚ) :
    (mixing_push_add d a b v).output_channels = d.output_channels ∧
    (mixing_push_add d a b v).mixing_channels = d.mixing_channels := by
  unfold mixing_push_add
  split_ifs <;> first | exact ⟨rfl, rfl⟩ | exact add_mixing_fst_counters _ _

lemma push_volume_counters (d : MixingData) (a : ℤ) (v : ℚ) :
    (mixing_push_volume d a v).output_channels = d.output_channels ∧
    (mixing_push_volume d a v).mixing_channels = d.mixing_channels := by
  unfold mixing_push_volume
  split_ifs <;> first | exact ⟨rfl, rfl⟩ | exact add_mixing_fst_counters _ _

lemma push_limit_counters (d : MixingData) (a : ℤ) (v : ℚ) :
    (mixing_push_limit d a v).output_channels = d.output_channels ∧
    (mixing_push_limit d a v).mixing_channels = d.mixing_channels := by
  unfold mixing_push_limit
  split_ifs <;> first | exact ⟨rfl, rfl⟩ | exact add_mixing_fst_counters _ _

lemma fade_core_counters (d : MixingData) (M : MixCommandData) :
    (mixing_push_fade_core d M).output_channels = d.output_channels ∧
    (mixing_push_fade_core d M).mixing_channels = d.mixing_channels := by
  unfold mixing_push_fade_core
  cases hidx : get_last_fade_idx d.mixing_chain M.ch_dst with
  | none =>
    exact add_mixing_fst_counters _ _
  | some i =>
    dsimp only
    split_ifs <;> exact add_mixing_fst_counters _ _

lemma push_fade_counters (d : MixingData) (ch : ℤ) (vs ve : ℚ) (sh : Char)
    (tp ts te tpo : ℤ) :
    (mixing_push_fade d ch vs ve sh tp ts te tpo).output_channels = d.output_channels ∧
    (mixing_push_fade d ch vs ve sh tp ts te tpo).mixing_channels = d.mixing_channels := by
  simp only [mixing_push_fade]
  split_ifs <;> try exact ⟨rfl, rfl⟩
  all_goals exact fade_core_counters _ _

lemma inv_push_swap (d : MixingData) (a b : ℤ) (h : MixInv d) :
    MixInv (mixing_push_swap d a b) :=
  MixInv_congr (push_swap_counters d a b).1 (push_swap_counters d a b).2 h

lemma inv_push_add (d : MixingData) (a b : ℤ) (v : ℚ) (h : MixInv d) :
    MixInv (mixing_push_add d a b v) :=
  MixInv_congr (push_add_counters d a b v).1 (push_add_counters d a b v).2 h

lemma inv_push_volume (d : MixingData) (a : ℤ) (v : ℚ) (h : MixInv d) :
    MixInv (mixing_push_volume d a v) :=
  MixInv_congr (push_volume_counters d a v).1 (push_volume_counters d a v).2 h

lemma inv_push_limit (d : MixingData) (a : ℤ) (v : ℚ) (h : MixInv d) :
    MixInv (mixing_push_limit d a v) :=
  MixInv_congr (push_limit_counters d a v).1 (push_limit_counters d a v).2 h

lemma inv_push_fade (d : MixingData) (ch : ℤ) (vs ve : ℚ) (sh : Char)
    (tp ts te tpo : ℤ) (h : MixInv d) :
    MixInv (mixing_push_fade d ch vs ve sh tp ts te tpo) :=
  MixInv_congr (push_fade_counters d ch vs ve sh tp ts te tpo).1
    (push_fade_counters d ch vs ve sh tp ts te tpo).2 h

lemma inv_push_upmix (d : MixingData) (a : ℤ) (h : MixInv d) :
    MixInv (mixing_push_upmix d a) := by
  obtain ⟨h1, h2⟩ := h
  simp only [mixing_push_upmix]
  split_ifs with g1 g2 g3 g4
  · exact ⟨h1, h2⟩
  · exact ⟨h1, h2⟩
  · unfold MixInv
    simp only [add_mixing_fst_out, add_mixing_fst_mix] at *
    constructor <;> omega
  · unfold MixInv
    simp only [add_mixing_fst_out, add_mixing_fst_mix] at *
    constructor <;> omega
  · exact MixInv_congr (add_mixing_fst_out _ _) (add_mixing_fst_mix _ _) ⟨h1, h2⟩

lemma inv_push_downmix (d : MixingData) (a : ℤ) (h : MixInv d) :
    MixInv (mixing_push_downmix d a) := by
  obtain ⟨h1, h2⟩ := h
  simp only [mixing_push_downmix]
  split_ifs with g1 g2 g3
  · exact ⟨h1, h2⟩
  · exact ⟨h1, h2⟩
  · unfold MixInv
    simp only [add_mixing_fst_out, add_mixing_fst_mix] at *
    constructor <;> omega
  · exact MixInv_congr (add_mixing_fst_out _ _) (add_mixing_fst_mix _ _) ⟨h1, h2⟩

lemma inv_push_killmix (d : MixingData) (a : ℤ) (h : MixInv d) :
    MixInv (mixing_push_killmix d a) := by
  obtain ⟨h1, h2⟩ := h
  simp only [mixing_push_killmix]
  split_ifs with g1 g2 g3
  · exact ⟨h1, h2⟩
  · exact ⟨h1, h2⟩
  · unfold MixInv
    simp only [add_mixing_fst_out, add_mixing_fst_mix] at *
    constructor <;> omega
  · exact MixInv_congr (add_mixing_fst_out _ _) (add_mixing_fst_mix _ _) ⟨h1, h2⟩

lemma foldl_pres {α β : Type} (P : β → Prop) (f : β → α → β)
    (hf : ∀ b a, P b → P (f b a)) :
    ∀ (l : List α) (b : β), P b → P (l.foldl f b) := by
  intro l
  induction l with
  | nil =>
    intro b hb
    exact hb
  | cons x xs ih =>
    intro b hb
    exact ih _ (hf b x hb)

lemma inv_macro_volume (d : MixingData) (v : ℚ) (mk : ℕ) (h : MixInv d) :
    MixInv (mixing_macro_volume d v mk) := by
  unfold mixing_macro_volume
  split_ifs
  · exact inv_push_volume _ _ _ h
  · refine foldl_pres MixInv _ ?_ _ _ h
    intro b a hb
    split_ifs
    · exact inv_push_volume _ _ _ hb
    · exact hb

lemma inv_macro_track (d : MixingData) (mk : ℕ) (h : MixInv d) :
    MixInv (mixing_macro_track d mk) := by
  unfold mixing_macro_track
  split_ifs
  · exact h
  · refine foldl_pres MixInv _ ?_ _ _ h
    intro b a hb
    split_ifs
    · exact hb
    · exact inv_push_downmix _ _ hb

lemma inv_macro_layer (F : TransFns) (d : MixingData) (mx : ℤ) (mk : ℕ) (md : Char)
    (h : MixInv d) : MixInv (mixing_macro_layer F d mx mk md) := by
  simp only [mixing_macro_layer]
  split_ifs <;> try exact h
  all_goals
    refine inv_push_killmix _ _ ?_
    refine foldl_pres (fun acc : MixingData × ℕ => MixInv acc.1) _ ?_ _ _
      (foldl_pres MixInv _ (fun b a hb => inv_push_upmix _ _ hb) _ _ h)
    intro b a hb
    try dsimp only
    try split_ifs
    all_goals first | exact hb | exact inv_push_add _ _ _ _ hb

lemma inv_sum_fold (dat : MixingData) (oc mx : ℤ) (h : MixInv dat) :
    MixInv ((List.range oc.toNat).foldl
      (fun (acc : MixingData × ℤ) ch =>
        if (ch : ℤ) < mx then acc
        else
          let d2 := mixing_push_add acc.1 acc.2 (ch : ℤ) 1
          let cur := acc.2 + 1
          (d2, if cur ≥ mx then 0 else cur))
      (dat, 0)).1 := by
  refine foldl_pres (fun acc : MixingData × ℤ => MixInv acc.1) _ ?_ _ _ h
  intro b a hb
  dsimp only
  split_ifs
  · exact hb
  · exact inv_push_add _ _ _ _ hb
  · exact inv_push_add _ _ _ _ hb

set_option maxHeartbeats 2000000 in
lemma inv_macro_crosstrack (d : MixingData) (v : VGMStreamState) (mx : ℤ)
    (h : MixInv d) : MixInv (mixing_macro_crosstrack d v mx).1 := by
  simp only [mixing_macro_crosstrack]
  split_ifs <;> try exact h
  all_goals
    refine inv_push_killmix _ _ (inv_sum_fold _ _ _ ?_)
    refine foldl_pres MixInv _ ?_ _ _ ?_
    · intro b a hb
      try dsimp only
      refine foldl_pres MixInv _ ?_ _ _ hb
      intro b2 a2 hb2
      try dsimp only
      try split_ifs
      all_goals first
        | exact hb2
        | exact inv_push_fade _ _ _ _ _ _ _ _ _ hb2
        | exact inv_push_fade _ _ _ _ _ _ _ _ _ (inv_push_fade _ _ _ _ _ _ _ _ _ hb2)
    · first
      | exact h
      | exact inv_push_upmix _ _ h

set_option maxHeartbeats 2000000 in
lemma inv_macro_crosslayer (F : TransFns) (d : MixingData) (v : VGMStreamState)
    (mx : ℤ) (md : Char) (h : MixInv d) :
    MixInv (mixing_macro_crosslayer F d v mx md).1 := by
  simp only [mixing_macro_crosslayer]
  split_ifs <;> try exact h
  all_goals
    refine inv_push_killmix _ _ (inv_sum_fold _ _ _ ?_)
    refine foldl_pres MixInv _ ?_ _ _ ?_
    · intro b a hb
      try dsimp only
      try split_ifs
      all_goals first
        | exact hb
        | (refine foldl_pres (fun acc : MixingData × ℤ => MixInv acc.1) _ ?_ _ _ hb
           intro b2 a2 hb2
           try dsimp only
           try split_ifs
           all_goals first
             | exact hb2
             | exact foldl_pres MixInv _ (fun b3 a3 hb3 =>
                 inv_push_fade _ _ _ _ _ _ _ _ _ hb3) _ _ hb2)
    · first
      | exact h
      | exact inv_push_upmix _ _ h

/-- C9: the invariant 1 <= output_channels <= mixing_channels holds after
mixing_init (for a stream with at least one channel, where both counters
equal the channel count) and is preserved by every builder constructor and
every macro, whether the individual call is accepted or rejected: Upmix
raises mixing_channels to at least the new output_channels, Downmix keeps
output_channels at least 1, and Killmix only installs a strictly positive
output_channels below the current one. -/
theorem claim_C9_channel_invariant :
    (∀ n : ℤ, 1 ≤ n → (mixing_init n).output_channels = n ∧
      (mixing_init n).mixing_channels = n ∧ MixInv (mixing_init n)) ∧
    (∀ (d : MixingData) (a b : ℤ), MixInv d → MixInv (mixing_push_swap d a b)) ∧
    (∀ (d : MixingData) (a b : ℤ) (v : ℚ), MixInv d → MixInv (mixing_push_add d a b v)) ∧
    (∀ (d : MixingData) (a : ℤ) (v : ℚ), MixInv d → MixInv (mixing_push_volume d a v)) ∧
    (∀ (d : MixingData) (a : ℤ) (v : ℚ), MixInv d → MixInv (mixing_push_limit d a v)) ∧
    (∀ (d : MixingData) (a : ℤ), MixInv d → MixInv (mixing_push_upmix d a)) ∧
    (∀ (d : MixingData) (a : ℤ), MixInv d → MixInv (mixing_push_downmix d a)) ∧
    (∀ (d : MixingData) (a : ℤ), MixInv d → MixInv (mixing_push_killmix d a)) ∧
    (∀ (d : MixingData) (ch : ℤ) (vs ve : ℚ) (sh : Char) (tp ts te tpo : ℤ),
      MixInv d → MixInv (mixing_push_fade d ch vs ve sh tp ts te tpo)) ∧
    (∀ (d : MixingData) (v : ℚ) (mk : ℕ), MixInv d → MixInv (mixing_macro_volume d v mk)) ∧
    (∀ (d : MixingData) (mk : ℕ), MixInv d → MixInv (mixing_macro_track d mk)) ∧
    (∀ (F : TransFns) (d : MixingData) (mx : ℤ) (mk : ℕ) (md : Char),
      MixInv d → MixInv (mixing_macro_layer F d mx mk md)) ∧
    (∀ (d : MixingData) (v : VGMStreamState) (mx : ℤ),
      MixInv d → MixInv (mixing_macro_crosstrack d v mx).1) ∧
    (∀ (F : TransFns) (d : MixingData) (v : VGMStreamState) (mx : ℤ) (md : Char),
      MixInv d → MixInv (mixing_macro_crosslayer F d v mx md).1) :=
  ⟨fun n hn => ⟨rfl, rfl, ⟨hn, le_refl n⟩⟩,
   inv_push_swap, inv_push_add, inv_push_volume, inv_push_limit,
   inv_push_upmix, inv_push_downmix, inv_push_killmix, inv_push_fade,
   inv_macro_volume, inv_macro_track, inv_macro_layer,
   inv_macro_crosstrack, inv_macro_crosslayer⟩

/-- Witness for C9: the invariant holds concretely after initialization and
after an accepted and a rejected builder call on a 2-channel state. -/
theorem claim_C9_witness :
    MixInv (mixing_init 2) ∧
    MixInv (mixing_push_upmix (mixing_init 2) 0) ∧
    MixInv (mixing_push_downmix (mixing_init 2) 5) :=
  ⟨(claim_C9_channel_invariant.1 2 (by norm_num)).2.2,
   claim_C9_channel_invariant.2.2.2.2.2.1 (mixing_init 2) 0
     (claim_C9_channel_invariant.1 2 (by norm_num)).2.2,
   claim_C9_channel_invariant.2.2.2.2.2.2.1 (mixing_init 2) 5
     (claim_C9_channel_invariant.1 2 (by norm_num)).2.2⟩

lemma add_mixing_true (d : MixingData) (m : MixCommandData)
    (h : (add_mixing d m).2 = true) :
    (add_mixing d m).1 = { d with mixing_chain := d.mixing_chain ++ [m] } := by
  unfold add_mixing at *
  split_ifs at * <;> simp_all

lemma add_mixing_rejected (d : MixingData) (m : MixCommandData)
    (h : (add_mixing d m).1.mixing_chain.length = d.mixing_chain.length) :
    (add_mixing d m).1 = d := by
  unfold add_mixing at *
  split_ifs at * <;> simp_all

lemma get_last_fade_idx_spec (chain : List MixCommandData) (t : ℤ) (i : ℕ)
    (h : get_last_fade_idx chain t = some i) :
    i < chain.length ∧ (chain.getD i mix0).command = MixCommandT.fade ∧
      (chain.getD i mix0).ch_dst = t := by
  unfold get_last_fade_idx at h
  have hmem := List.mem_of_find?_eq_some h
  have hpred := List.find?_some h
  have hlt : i < chain.length := by
    rw [List.mem_reverse, List.mem_range] at hmem
    exact hmem
  refine ⟨hlt, ?_⟩
  cases hgi : chain.get? i with
  | none =>
    rw [hgi] at hpred
    cases hpred
  | some m =>
    rw [hgi] at hpred
    have := of_decide_eq_true hpred
    have hgd : chain.getD i mix0 = m := by
      rw [List.getD_eq_getD_get?, hgi]
      rfl
    rw [hgd]
    exact this

lemma stitch_pair_fst_only_post (prev mix : MixCommandData) :
    ∃ p, (stitch_pair prev mix).1 = { prev with time_post := p } := by
  simp only [stitch_pair]
  split_ifs <;> exact ⟨_, rfl⟩

lemma fade_core_reject (d : MixingData) (M : MixCommandData)
    (h : (mixing_push_fade_core d M).mixing_chain.length = d.mixing_chain.length) :
    (mixing_push_fade_core d M).output_channels = d.output_channels ∧
    (mixing_push_fade_core d M).mixing_channels = d.mixing_channels ∧
    (mixing_push_fade_core d M).mixing_on = d.mixing_on ∧
    (mixing_push_fade_core d M).mixing_size = d.mixing_size ∧
    ((mixing_push_fade_core d M).mixing_chain = d.mixing_chain ∨
      ∃ (i : ℕ) (p : ℤ), i < d.mixing_chain.length ∧
        (d.mixing_chain.getD i mix0).command = MixCommandT.fade ∧
        (mixing_push_fade_core d M).mixing_chain =
          d.mixing_chain.set i { d.mixing_chain.getD i mix0 with time_post := p }) := by
  unfold mixing_push_fade_core at h ⊢
  cases hidx : get_last_fade_idx d.mixing_chain M.ch_dst with
  | none =>
    rw [hidx] at h
    dsimp only at h ⊢
    rw [add_mixing_rejected _ _ h]
    exact ⟨rfl, rfl, rfl, rfl, Or.inl rfl⟩
  | some i =>
    rw [hidx] at h
    dsimp only at h ⊢
    obtain ⟨hilt, hifade, hich⟩ := get_last_fade_idx_spec _ _ _ hidx
    split_ifs at h ⊢
    all_goals try (rw [add_mixing_rejected _ _ h]
                   exact ⟨rfl, rfl, rfl, rfl, Or.inl rfl⟩)
    all_goals
      obtain ⟨p, hp⟩ := stitch_pair_fst_only_post (d.mixing_chain.getD i mix0) M
      have hlen : ({ d with mixing_chain :=
          (d.mixing_chain.set i (stitch_pair (d.mixing_chain.getD i mix0) M).1) } :
            MixingData).mixing_chain.length = d.mixing_chain.length := by
        simp
      rw [add_mixing_rejected _ _ (by rw [hlen]; exact h)]
      refine ⟨rfl, rfl, rfl, rfl, Or.inr ⟨i, p, hilt, hifade, ?_⟩⟩
      rw [hp]

/-- C3 (amended): every rejected non-Fade constructor call leaves the state
fully unchanged; a rejected Fade call leaves mixing_count and all counters
unchanged and at most patches the time_post field of the most recent prior
Fade command aimed at the same channel selector, because its stitching pass
runs before add_mixing validates the append. -/
theorem claim_C3_rejection_no_mutation :
    (∀ (d : MixingData) (a b : ℤ),
      (mixing_push_swap d a b).mixing_chain.length = d.mixing_chain.length →
      mixing_push_swap d a b = d) ∧
    (∀ (d : MixingData) (a b : ℤ) (v : ℚ),
      (mixing_push_add d a b v).mixing_chain.length = d.mixing_chain.length →
      mixing_push_add d a b v = d) ∧
    (∀ (d : MixingData) (a : ℤ) (v : ℚ),
      (mixing_push_volume d a v).mixing_chain.length = d.mixing_chain.length →
      mixing_push_volume d a v = d) ∧
    (∀ (d : MixingData) (a : ℤ) (v : ℚ),
      (mixing_push_limit d a v).mixing_chain.length = d.mixing_chain.length →
      mixing_push_limit d a v = d) ∧
    (∀ (d : MixingData) (a : ℤ),
      (mixing_push_upmix d a).mixing_chain.length = d.mixing_chain.length →
      mixing_push_upmix d a = d) ∧
    (∀ (d : MixingData) (a : ℤ),
      (mixing_push_downmix d a).mixing_chain.length = d.mixing_chain.length →
      mixing_push_downmix d a = d) ∧
    (∀ (d : MixingData) (a : ℤ),
      (mixing_push_killmix d a).mixing_chain.length = d.mixing_chain.length →
      mixing_push_killmix d a = d) ∧
    (∀ (d : MixingData) (ch : ℤ) (vs ve : ℚ) (sh : Char) (tp ts te tpo : ℤ),
      (mixing_push_fade d ch vs ve sh tp ts te tpo).mixing_chain.length =
          d.mixing_chain.length →
      (mixing_push_fade d ch vs ve sh tp ts te tpo).output_channels = d.output_channels ∧
      (mixing_push_fade d ch vs ve sh tp ts te tpo).mixing_channels = d.mixing_channels ∧
      (mixing_push_fade d ch vs ve sh tp ts te tpo).mixing_on = d.mixing_on ∧
      (mixing_push_fade d ch vs ve sh tp ts te tpo).mixing_size = d.mixing_size ∧
      ((mixing_push_fade d ch vs ve sh tp ts te tpo).mixing_chain = d.mixing_chain ∨
        ∃ (i : ℕ) (p : ℤ), i < d.mixing_chain.length ∧
          (d.mixing_chain.getD i mix0).command = MixCommandT.fade ∧
          (mixing_push_fade d ch vs ve sh tp ts te tpo).mixing_chain =
            d.mixing_chain.set i { d.mixing_chain.getD i mix0 with time_post := p })) := by
  refine ⟨?_, ?_, ?_, ?_, ?_, ?_, ?_, ?_⟩
  · intro d a b h
    simp only [mixing_push_swap] at h ⊢
    split_ifs at h ⊢
    · rfl
    · rfl
    · exact add_mixing_rejected _ _ h
  · intro d a b v h
    simp only [mixing_push_add] at h ⊢
    split_ifs at h ⊢
    · rfl
    · rfl
    · rfl
    · exact add_mixing_rejected _ _ h
  · intro d a v h
    simp only [mixing_push_volume] at h ⊢
    split_ifs at h ⊢
    · rfl
    · rfl
    · exact add_mixing_rejected _ _ h
  · intro d a v h
    simp only [mixing_push_limit] at h ⊢
    split_ifs at h ⊢
    · rfl
    · rfl
    · rfl
    · exact add_mixing_rejected _ _ h
  · intro d a h
    simp only [mixing_push_upmix] at h ⊢
    split_ifs at h ⊢ with g1 g2 g3 g4
    · rfl
    · rfl
    · exfalso
      rw [add_mixing_true _ _ g3] at h
      simp at h
    · exfalso
      rw [add_mixing_true _ _ g3] at h
      simp at h
    · exact add_mixing_rejected _ _ h
  · intro d a h
    simp only [mixing_push_downmix] at h ⊢
    split_ifs at h ⊢ with g1 g2 g3
    · rfl
    · rfl
    · exfalso
      rw [add_mixing_true _ _ g3] at h
      simp at h
    · exact add_mixing_rejected _ _ h
  · intro d a h
    simp only [mixing_push_killmix] at h ⊢
    split_ifs at h ⊢ with g1 g2 g3
    · rfl
    · rfl
    · exfalso
      rw [add_mixing_true _ _ g3] at h
      simp at h
    · exact add_mixing_rejected _ _ h
  · intro d ch vs ve sh tp ts te tpo h
    simp only [mixing_push_fade] at h ⊢
    split_ifs at h ⊢
    all_goals try exact ⟨rfl, rfl, rfl, rfl, Or.inl rfl⟩
    all_goals exact fade_core_reject _ _ h

/-- A state holding one fade with open post on channel 0, already activated,
for the C3 counterexample. -/
def dataPrevFade : MixingData :=
  ⟨2, 2, true, [⟨MixCommandT.fade, 0, 0, 0, 1, 0, 'T', -1, 0, 100, -1⟩], 128⟩

/-- Counterexample to C3 as stated: a Fade call made after activation is
rejected (nothing is appended: the chain length stays 1) yet the state is
mutated, because fade stitching patched the stored previous fade before
add_mixing refused the append. -/
theorem claim_C3_counterexample :
    (mixing_push_fade dataPrevFade 0 0 1 'T' (-1) 100 200 (-1)).mixing_chain.length =
      dataPrevFade.mixing_chain.length ∧
    mixing_push_fade dataPrevFade 0 0 1 'T' (-1) 100 200 (-1) ≠ dataPrevFade := by
  decide

/-- Witness for C3 (amended): a rejected Swap call leaves a concrete state
unchanged, and the rejected Fade of the counterexample keeps its counters. -/
theorem claim_C3_witness :
    mixing_push_swap (mixing_init 2) 0 0 = mixing_init 2 ∧
    (mixing_push_fade dataPrevFade 0 0 1 'T' (-1) 100 200 (-1)).output_channels =
      dataPrevFade.output_channels :=
  ⟨claim_C3_rejection_no_mutation.1 (mixing_init 2) 0 0 (by decide),
   (claim_C3_rejection_no_mutation.2.2.2.2.2.2.2 dataPrevFade 0 0 1 'T' (-1) 100 200 (-1)
      (by decide)).1⟩

/-- C10: the fade constructor silently rejects any negative time_start or
time_end; the open value -1 remains legal for time_pre and time_post, as
the accepted example with open boundaries shows. -/
theorem claim_C10_fade_rejects_negative_window :
    (∀ (data : MixingData) (ch : ℤ) (vs ve : ℚ) (sh : Char) (tp ts te tpo : ℤ),
        ts < 0 ∨ te < 0 →
        mixing_push_fade data ch vs ve sh tp ts te tpo = data) ∧
    (mixing_push_fade (mixing_init 2) (-1) 1 0 'T' (-1) 0 100 (-1)).mixing_chain.length = 1 := by
  constructor
  · intro data ch vs ve sh tp ts te tpo h
    unfold mixing_push_fade
    by_cases h1 : ch ≥ data.output_channels
    · rw [if_pos h1]
    · rw [if_neg h1]
      by_cases h2 : tp > ts ∨ ts > te ∨ (tpo ≥ 0 ∧ te > tpo)
      · rw [if_pos h2]
      · rw [if_neg h2, if_pos h]
  · decide

/-- Witness for C10 at a concrete negative-window call. -/
theorem claim_C10_witness :
    mixing_push_fade (mixing_init 2) 0 1 0 'T' (-6) (-5) 100 (-1) = mixing_init 2 :=
  claim_C10_fade_rejects_negative_window.1 (mixing_init 2) 0 1 0 'T' (-6) (-5) 100 (-1)
    (Or.inl (by norm_num))

set_option maxHeartbeats 1000000 in
/-- The chain that the layer-downmix macro with max=2, mask=0b1111, mode v
builds on a 4-channel stream: two leading silent upmixes, four unweighted
adds in round-robin assignment, and a final killmix to 2 channels. -/
lemma macro_layer_4ch_chain (F : TransFns) :
    (mixing_macro_layer F (mixing_init 4) 2 15 'v').mixing_chain =
      [{ mix0 with command := MixCommandT.upmix, ch_dst := 0 },
       { mix0 with command := MixCommandT.upmix, ch_dst := 0 },
       { mix0 with command := MixCommandT.add, ch_dst := 0, ch_src := 2, vol := 1 },
       { mix0 with command := MixCommandT.add, ch_dst := 1, ch_src := 3, vol := 1 },
       { mix0 with command := MixCommandT.add, ch_dst := 0, ch_src := 4, vol := 1 },
       { mix0 with command := MixCommandT.add, ch_dst := 1, ch_src := 5, vol := 1 },
       { mix0 with command := MixCommandT.killmix, ch_dst := 2 }] := rfl

set_option maxHeartbeats 1000000 in
lemma macro_layer_4ch_out (F : TransFns) :
    (mixing_macro_layer F (mixing_init 4) 2 15 'v').output_channels = 2 := rfl

/-- C8: on a 4-channel stream the macro Layer-downmix(max=2, mask=0b1111,
mode=v) yields a state whose derived output_channels is 2, and executing
the generated chain on any working row leaves 2 active lanes, with lane 0
holding the unweighted sum of source lanes 0 and 2 and lane 1 the unweighted
sum of source lanes 1 and 3. -/
theorem claim_C8_layer_downmix (F G : TransFns) (pos : ℤ) (row : ℤ → ℚ) :
    (mixing_macro_layer F (mixing_init 4) 2 15 'v').output_channels = 2 ∧
    ((mixing_macro_layer F (mixing_init 4) 2 15 'v').mixing_chain.foldl
        (applyCommand G pos) (row, 4)).2 = 2 ∧
    ((mixing_macro_layer F (mixing_init 4) 2 15 'v').mixing_chain.foldl
        (applyCommand G pos) (row, 4)).1 0 = row 0 + row 2 ∧
    ((mixing_macro_layer F (mixing_init 4) 2 15 'v').mixing_chain.foldl
        (applyCommand G pos) (row, 4)).1 1 = row 1 + row 3 := by
  rw [macro_layer_4ch_chain]
  refine ⟨macro_layer_4ch_out F, rfl, ?_, ?_⟩ <;>
    simp [List.foldl, applyCommand]
